import Mathlib

/-!
Verification of `player-wasm/src/main/resources/web/serve.py`: a static
file server over Python's `http.server` that overrides `end_headers` to
write two COOP/COEP header lines, binds `socketserver.TCPServer(('', PORT))`
where `PORT = int(sys.argv[1]) if len(sys.argv) > 1 else 8080`, prints
`Serving on http://localhost:<PORT>` and calls `serve_forever()`.

The embedding models the script together with the parts of the Python 3
standard library its behaviour depends on: `int()` parsing of decimal
string arguments, `BaseHTTPRequestHandler`'s header buffering
(`send_response_only` / `send_header` append to `_headers_buffer`, which is
flushed to `wfile` only inside the base `end_headers`), the
`SimpleHTTPRequestHandler` 200 and 404 response paths, TCP bind semantics
(`OverflowError` outside 0..65535, environment-dependent success inside),
and the `serve_forever` polling loop.
-/

namespace Serve

/-! ## Python `int()` applied to a string argument

`int(s)` strips ASCII whitespace, accepts one optional sign, then one or
more decimal digits with single underscores allowed between digits.
Anything else raises `ValueError` (modelled as `none`).  Non-ASCII decimal
digits, which CPython also accepts, are outside the model; every claim
only concerns ASCII arguments. -/

def digitVal (c : Char) : Option Nat :=
  if c.isDigit then some (c.toNat - 48) else none

/-- Digits after the first one: single underscores may separate digits but
may not lead, trail, or double up. `acc` is the value of the digits read
so far. -/
def pyDigitsAux (acc : Nat) : List Char → Option Nat
  | [] => some acc
  | c :: rest =>
    if c = '_' then
      match rest with
      | [] => none
      | d :: rest2 =>
        match digitVal d with
        | some v => pyDigitsAux (acc * 10 + v) rest2
        | none => none
    else
      match digitVal c with
      | some v => pyDigitsAux (acc * 10 + v) rest
      | none => none

/-- The digit run of a Python integer literal: at least one digit, and it
must start with a digit (no leading underscore). -/
def pyIntCore : List Char → Option Nat
  | [] => none
  | c :: rest =>
    match digitVal c with
    | some v => pyDigitsAux v rest
    | none => none

/-- ASCII whitespace stripped by `int()` before parsing. -/
def isPySpace (c : Char) : Bool :=
  c = ' ' || c = '\t' || c = '\n' || c = '\r' || c = '\x0b' || c = '\x0c'

def stripWs (l : List Char) : List Char :=
  ((l.dropWhile isPySpace).reverse.dropWhile isPySpace).reverse

/-- `int(s)` for a string `s`: `some n` when it parses, `none` when CPython
raises `ValueError`. -/
def pyInt (s : String) : Option Int :=
  match stripWs s.data with
  | [] => none
  | c :: rest =>
    if c = '+' then (pyIntCore rest).map (fun n => (n : Int))
    else if c = '-' then (pyIntCore rest).map (fun n => -(n : Int))
    else (pyIntCore (c :: rest)).map (fun n => (n : Int))

/-- Value of a string of decimal digits. -/
def digitsVal (s : String) : Nat :=
  s.data.foldl (fun a c => a * 10 + (c.toNat - 48)) 0

/-! ## Startup: `PORT = int(sys.argv[1]) if len(sys.argv) > 1 else 8080` -/

/-- Line 16 of the script. `argv` is the full `sys.argv`, script name
included; `none` is an uncaught `ValueError` from `int()`. -/
def computePORT (argv : List String) : Option Int :=
  if h : argv.length > 1 then pyInt (argv.get ⟨1, h⟩) else some 8080

/-- The operating-system-dependent part of `TCPServer(('', PORT))`:
whether binding a listener to a given in-range port succeeds (it can fail
when the port is in use or privileged). -/
structure Env where
  bindOk : Nat → Bool

/-- Outcome of running the script's top level.  The first three are
uncaught exceptions (`ValueError` from `int()`, `OverflowError` from
`bind()` for a port outside 0..65535, `OSError` for an in-range bind
failure); `serving` records the bound address, the requested port and the
lines printed to stdout before `serve_forever()` is entered. -/
inductive StartupOutcome where
  | valueError : StartupOutcome
  | overflowError : StartupOutcome
  | osError (host : String) (port : Nat) : StartupOutcome
  | serving (host : String) (port : Nat) (stdout : List String) : StartupOutcome
deriving Repr, DecidableEq

/-- The single stdout line `f'Serving on http://localhost:{PORT}'`. -/
def servingLine (port : Nat) : String :=
  "Serving on http://localhost:" ++ toString port

/-- `socketserver.TCPServer(('', p), Handler)` followed by the `with`
body: `bind()` raises `OverflowError` outside 0..65535 and `OSError` when
the OS refuses the port; on success the serving line is printed and
`serve_forever()` is entered. -/
def bindAndServe (env : Env) (p : Int) : StartupOutcome :=
  if p < 0 ∨ 65535 < p then .overflowError
  else if env.bindOk p.toNat then .serving "" p.toNat [servingLine p.toNat]
  else .osError "" p.toNat

/-- Lines 16-19 of the script: compute `PORT`, construct
`socketserver.TCPServer(('', PORT), Handler)` (whose constructor binds the
listener), print the serving line, call `serve_forever()`.  There is no
`try`/`except`, so every exception propagates uncaught. -/
def runStartup (argv : List String) (env : Env) : StartupOutcome :=
  match computePORT argv with
  | none => .valueError
  | some p => bindAndServe env p

/-- Whether the outcome reached the `serve_forever()` loop. -/
def enteredServingLoop : StartupOutcome → Bool
  | .serving _ _ _ => true
  | _ => false

/-- Python's default behaviour for an uncaught exception at module level:
the process exits with a nonzero status. -/
def processExitsWithFailure : StartupOutcome → Bool
  | .serving _ _ _ => false
  | _ => true

/-- TCP bind semantics for the host part of the address: binding the empty
host (the wildcard address `0.0.0.0`) accepts connections arriving on any
local interface, a concrete host only on itself. -/
def acceptsConnectionFrom (bindHost iface : String) : Bool :=
  bindHost = "" || bindHost = iface

/-- An environment where every in-range bind succeeds. -/
def envAll : Env := ⟨fun _ => true⟩

/-- An environment where every bind fails (e.g. every port in use). -/
def envNone : Env := ⟨fun _ => false⟩

/-! ## The request handler

`Handler` subclasses `http.server.SimpleHTTPRequestHandler` and overrides
only `end_headers`.  In Python 3 `send_response_only` and `send_header`
append to the internal `_headers_buffer`; the bytes reach `wfile` only
when the base `end_headers` flushes the buffer and the blank-line
terminator (for requests other than HTTP/0.9).  `wfile` is modelled as
the list of byte chunks written, in order. -/

def CRLF : String := "\r\n"

def coopLine : String := "Cross-Origin-Opener-Policy: same-origin" ++ CRLF

def coepLine : String := "Cross-Origin-Embedder-Policy: require-corp" ++ CRLF

structure HandlerState where
  /-- `self.request_version`, e.g. `"HTTP/1.1"`. -/
  requestVersion : String
  /-- `self._headers_buffer`: header chunks not yet written to the wire. -/
  headersBuffer : List String
  /-- The chunks written to `self.wfile`, in order. -/
  wfile : List String
deriving Repr, DecidableEq

/-- One `self.wfile.write(chunk)`. -/
def wfileWrite (chunk : String) (s : HandlerState) : HandlerState :=
  { s with wfile := s.wfile ++ [chunk] }

/-- `b"".join(chunks)`. -/
def joinChunks : List String → String
  | [] => ""
  | c :: cs => c ++ joinChunks cs

/-- `BaseHTTPRequestHandler.send_response_only`: buffer the status line.
The class attribute `protocol_version` is `"HTTP/1.0"`. -/
def send_response_only (code : Nat) (message : String) (s : HandlerState) : HandlerState :=
  if s.requestVersion ≠ "HTTP/0.9" then
    { s with headersBuffer :=
        s.headersBuffer ++ ["HTTP/1.0 " ++ toString code ++ " " ++ message ++ CRLF] }
  else s

/-- `BaseHTTPRequestHandler.send_header`: buffer one header line. -/
def send_header (keyword value : String) (s : HandlerState) : HandlerState :=
  if s.requestVersion ≠ "HTTP/0.9" then
    { s with headersBuffer := s.headersBuffer ++ [keyword ++ ": " ++ value ++ CRLF] }
  else s

/-- `BaseHTTPRequestHandler.flush_headers`: write the joined buffer to
`wfile` in a single `write`, then clear it. -/
def flush_headers (s : HandlerState) : HandlerState :=
  { s with wfile := s.wfile ++ [joinChunks s.headersBuffer], headersBuffer := [] }

/-- `BaseHTTPRequestHandler.end_headers` (what `super().end_headers()`
runs): append the blank-line terminator to the buffer and flush it. -/
def base_end_headers (s : HandlerState) : HandlerState :=
  if s.requestVersion ≠ "HTTP/0.9" then
    flush_headers { s with headersBuffer := s.headersBuffer ++ [CRLF] }
  else s

/-- The script's override (lines 11-14 of `serve.py`): two raw
`wfile.write` calls, then `super().end_headers()`. -/
def Handler.end_headers (s : HandlerState) : HandlerState :=
  base_end_headers (wfileWrite coepLine (wfileWrite coopLine s))

/-- `BaseHTTPRequestHandler.send_response`: buffer the status line and the
`Server` and `Date` headers (their values come from the environment). -/
def send_response (serverString dateString : String) (code : Nat) (message : String)
    (s : HandlerState) : HandlerState :=
  send_header "Date" dateString
    (send_header "Server" serverString (send_response_only code message s))

/-! ## Serving one GET request

`SimpleHTTPRequestHandler.do_GET` resolves the request path against the
working directory and either streams the file (200) or calls
`send_error(404, "File not found")`.  Path resolution, directory handling
and MIME inference are delegated entirely to the standard library; they
are modelled as a lookup in an abstract file system mapping request paths
to file bodies, with MIME inference by extension for the extensions that
occur here.  Every call to `self.end_headers()` dispatches to the
script's override `Handler.end_headers`. -/

/-- The file-system state: request path to file contents. -/
def FS := List (String × String)

/-- `mimetypes`-based `guess_type`, restricted to the extension used in
the examples; other paths get the stdlib fallback type. -/
def guessType (path : String) : String :=
  if (".html".data).isSuffixOf path.data then "text/html"
  else "application/octet-stream"

/-- The stdlib error page (`error_message_format` with `code`, `message`
and `explain` substituted); its exact text is stdlib behaviour, only its
presence and length matter here. -/
def errorBody (code : Nat) (message explain : String) : String :=
  "<!DOCTYPE HTML><html><body><h1>Error response</h1><p>Error code: "
    ++ toString code ++ "</p><p>Message: " ++ message
    ++ ".</p><p>Error code explanation: " ++ toString code ++ " - " ++ explain
    ++ ".</p></body></html>"

/-- Environment values the handler interpolates into headers. -/
structure HttpEnv where
  serverString : String
  dateString : String
deriving Repr, DecidableEq

/-- A fresh per-request handler state (a new `Handler` instance is
constructed for every request; the buffer starts empty and nothing has
been written). -/
def freshState (requestVersion : String) : HandlerState :=
  ⟨requestVersion, [], []⟩

/-- `do_GET` on a request for `path` sent as HTTP/1.1: the 200 path
(status, `Server`, `Date`, `Content-type`, `Content-Length`,
`end_headers`, body) or the `send_error 404` path (status, `Server`,
`Date`, `Connection: close`, `Content-Type`, `Content-Length`,
`end_headers`, error body). -/
def do_GET (env : HttpEnv) (fs : FS) (path : String) : HandlerState :=
  let s0 := freshState "HTTP/1.1"
  match List.lookup path fs with
  | some body =>
    let s := send_response env.serverString env.dateString 200 "OK" s0
    let s := send_header "Content-type" (guessType path) s
    let s := send_header "Content-Length" (toString body.length) s
    let s := Handler.end_headers s
    wfileWrite body s
  | none =>
    let body := errorBody 404 "File not found" "Nothing matches the given URI"
    let s := send_response env.serverString env.dateString 404 "File not found" s0
    let s := send_header "Connection" "close" s
    let s := send_header "Content-Type" "text/html;charset=utf-8" s
    let s := send_header "Content-Length" (toString body.length) s
    let s := Handler.end_headers s
    wfileWrite body s

/-- All bytes the handler puts on the wire for one request. -/
def responseWire (env : HttpEnv) (fs : FS) (path : String) : String :=
  joinChunks (do_GET env fs path).wfile

/-! ## Parsing an emitted response

To check what a receiver sees, the wire is split into CRLF-separated
lines.  The header block of an HTTP response is what stands between the
status line (the first line starting with `HTTP/`) and the first blank
line; the parser below is lenient in the claim's favour, skipping any
garbage before the status line instead of rejecting the response. -/

def splitLinesAux : List Char → List Char → List String
  | [], acc => [String.mk acc.reverse]
  | '\r' :: '\n' :: rest, acc => String.mk acc.reverse :: splitLinesAux rest []
  | c :: rest, acc => splitLinesAux rest (c :: acc)

/-- The wire as a list of CRLF-separated lines. -/
def wireLines (w : String) : List String :=
  splitLinesAux w.data []

def isStatusLine (l : String) : Bool :=
  ("HTTP/".data).isPrefixOf l.data

/-- The response's header lines: after the status line, before the first
blank line. -/
def headerBlock (w : String) : List String :=
  (((wireLines w).dropWhile (fun l => !isStatusLine l)).drop 1).takeWhile
    (fun l => l ≠ "")

/-! ## The serving loop

`socketserver.BaseServer.serve_forever` polls the listening socket and
handles one request per ready poll, until `__shutdown_request` is set —
which only the (never called) `shutdown()` method does.  A poll tick
either delivers an accepted connection or times out. -/

/-- One accepted connection: the GET path and the `Date` value at
handling time. -/
structure Conn where
  path : String
  date : String
deriving Repr, DecidableEq

/-- Cross-request server state: the shutdown flag and the file system,
plus the transcript of responses already sent (observation only). -/
structure ServerState where
  shutdownRequest : Bool
  fs : FS
  transcript : List String

def initialServerState (fs : FS) : ServerState :=
  ⟨false, fs, []⟩

/-- Handle one request: a fresh `Handler` instance runs `do_GET` against
the current file system and its wire output is sent. -/
def handleOne (serverString : String) (c : Conn) (st : ServerState) : ServerState :=
  { st with transcript :=
      st.transcript ++ [responseWire ⟨serverString, c.date⟩ st.fs c.path] }

/-- One iteration of the `serve_forever` while-loop: exit if shutdown was
requested, otherwise handle the ready connection, if any. -/
def pollStep (serverString : String) (st : ServerState) (ev : Option Conn) : ServerState :=
  if st.shutdownRequest then st
  else
    match ev with
    | some c => handleOne serverString c st
    | none => st

/-- `httpd.serve_forever()` run over a finite prefix of poll ticks. -/
def serve_forever (serverString : String) (st : ServerState)
    (polls : List (Option Conn)) : ServerState :=
  polls.foldl (pollStep serverString) st

/-- A sample environment and file system used for concrete evaluations. -/
def sampleEnv : HttpEnv :=
  ⟨"SimpleHTTP/0.6 Python/3.12.3", "Thu, 01 Jan 2026 00:00:00 GMT"⟩

def sampleFS : FS := [("/index.html", "<html>hi</html>")]

/-! ## Helper lemmas -/

theorem not_pySpace_of_isDigit {c : Char} (h : c.isDigit = true) :
    isPySpace c = false := by
  cases hsp : isPySpace c with
  | false => rfl
  | true =>
    exfalso
    simp only [isPySpace, Bool.or_eq_true, decide_eq_true_eq] at hsp
    rcases hsp with ((((h1 | h1) | h1) | h1) | h1) | h1 <;>
      subst h1 <;> exact absurd h (by decide)

theorem dropWhile_eq_self_of_all {l : List Char} {p : Char → Bool}
    (h : ∀ c ∈ l, p c = false) : l.dropWhile p = l := by
  cases l with
  | nil => rfl
  | cons c cs => simp [List.dropWhile, h c (List.mem_cons_self _ _)]

theorem stripWs_of_digits {l : List Char} (h : ∀ c ∈ l, c.isDigit = true) :
    stripWs l = l := by
  have hf : ∀ c ∈ l, isPySpace c = false := fun c hc => not_pySpace_of_isDigit (h c hc)
  unfold stripWs
  rw [dropWhile_eq_self_of_all hf,
    dropWhile_eq_self_of_all (fun c hc => hf c (List.mem_reverse.mp hc)),
    List.reverse_reverse]

theorem pyDigitsAux_digits (l : List Char) : ∀ acc : Nat,
    (∀ c ∈ l, c.isDigit = true) →
    pyDigitsAux acc l = some (l.foldl (fun a c => a * 10 + (c.toNat - 48)) acc) := by
  induction l with
  | nil => intro acc _; rfl
  | cons c rest ih =>
    intro acc h
    have hc : c.isDigit = true := h c (List.mem_cons_self _ _)
    have hne : ¬(c = '_') := by
      intro heq; subst heq; exact absurd hc (by decide)
    have hrest : ∀ x ∈ rest, x.isDigit = true :=
      fun x hx => h x (List.mem_cons_of_mem _ hx)
    have step : pyDigitsAux acc (c :: rest) = pyDigitsAux (acc * 10 + (c.toNat - 48)) rest := by
      rcases rest with _ | ⟨d, rest2⟩ <;> simp [pyDigitsAux, hne, digitVal, hc]
    rw [step, List.foldl_cons]
    exact ih _ hrest

theorem pyInt_digits (s : String) (hne : s.data ≠ [])
    (h : ∀ c ∈ s.data, c.isDigit = true) :
    pyInt s = some ((digitsVal s : Int)) := by
  obtain ⟨c, rest, hd⟩ : ∃ c rest, s.data = c :: rest := by
    cases hdata : s.data with
    | nil => exact absurd hdata hne
    | cons c rest => exact ⟨c, rest, rfl⟩
  have hc : c.isDigit = true := h c (hd ▸ List.mem_cons_self _ _)
  have hplus : ¬(c = '+') := by
    intro heq; subst heq; exact absurd hc (by decide)
  have hminus : ¬(c = '-') := by
    intro heq; subst heq; exact absurd hc (by decide)
  have hrest : ∀ x ∈ rest, x.isDigit = true :=
    fun x hx => h x (hd ▸ List.mem_cons_of_mem _ hx)
  unfold pyInt
  rw [stripWs_of_digits h, hd]
  have hcore : pyIntCore (c :: rest) = pyDigitsAux (c.toNat - 48) rest := by
    simp [pyIntCore, digitVal, hc]
  simp only [if_neg hplus, if_neg hminus, hcore]
  rw [pyDigitsAux_digits rest (c.toNat - 48) hrest]
  simp [digitsVal, hd]

theorem joinChunks_append (l₁ l₂ : List String) :
    joinChunks (l₁ ++ l₂) = joinChunks l₁ ++ joinChunks l₂ := by
  induction l₁ with
  | nil => simp [joinChunks]
  | cons c cs ih => simp [joinChunks, ih, String.append_assoc]

theorem pollStep_shutdownRequest (sv : String) (st : ServerState) (ev : Option Conn) :
    (pollStep sv st ev).shutdownRequest = st.shutdownRequest := by
  unfold pollStep handleOne
  split
  · rfl
  · cases ev <;> rfl

theorem pollStep_fs (sv : String) (st : ServerState) (ev : Option Conn) :
    (pollStep sv st ev).fs = st.fs := by
  unfold pollStep handleOne
  split
  · rfl
  · cases ev <;> rfl

theorem serve_forever_shutdownRequest (sv : String) (polls : List (Option Conn)) :
    ∀ st : ServerState, (serve_forever sv st polls).shutdownRequest = st.shutdownRequest := by
  induction polls with
  | nil => intro st; rfl
  | cons p ps ih =>
    intro st
    show (serve_forever sv (pollStep sv st p) ps).shutdownRequest = _
    rw [ih, pollStep_shutdownRequest]

theorem serve_forever_fs (sv : String) (polls : List (Option Conn)) :
    ∀ st : ServerState, (serve_forever sv st polls).fs = st.fs := by
  induction polls with
  | nil => intro st; rfl
  | cons p ps ih =>
    intro st
    show (serve_forever sv (pollStep sv st p) ps).fs = _
    rw [ih, pollStep_fs]

theorem computePORT_two (s : String) : computePORT ["serve.py", s] = pyInt s := rfl

theorem computePORT_none : computePORT ["serve.py"] = some 8080 := rfl

theorem runStartup_eq_none (argv : List String) (env : Env)
    (h : computePORT argv = none) : runStartup argv env = .valueError := by
  unfold runStartup
  rw [h]

theorem runStartup_eq_some (argv : List String) (env : Env) (p : Int)
    (h : computePORT argv = some p) : runStartup argv env = bindAndServe env p := by
  unfold runStartup
  rw [h]

/-- Whatever run reaches the serving loop did so by binding host `''`
and printing the single serving line for its port. -/
theorem runStartup_serving_inv (argv : List String) (env : Env)
    (host : String) (port : Nat) (out : List String)
    (h : runStartup argv env = .serving host port out) :
    host = "" ∧ out = [servingLine port] := by
  rcases hcp : computePORT argv with _ | p
  · rw [runStartup_eq_none argv env hcp] at h
    exact absurd h (fun hcon => StartupOutcome.noConfusion hcon)
  · rw [runStartup_eq_some argv env p hcp] at h
    unfold bindAndServe at h
    by_cases hov : p < 0 ∨ 65535 < p
    · rw [if_pos hov] at h
      exact absurd h (fun hcon => StartupOutcome.noConfusion hcon)
    · rw [if_neg hov] at h
      by_cases hb : env.bindOk p.toNat = true
      · rw [if_pos hb] at h
        rw [StartupOutcome.serving.injEq] at h
        obtain ⟨hhost, hport, hout⟩ := h
        subst hport
        exact ⟨hhost.symm, hout.symm⟩
      · rw [if_neg hb] at h
        exact absurd h (fun hcon => StartupOutcome.noConfusion hcon)

/-! ## The claims -/

/-- Claim C2. Whenever `Handler.end_headers` finalizes a response's header
block (for any request version other than HTTP/0.9), exactly two extra
header lines are written, in order — first the COOP line, then the COEP
line — and both are written immediately before the finalization of the
standard response header block: the very next write is the flush of the
buffered header block together with its blank-line terminator. -/
theorem end_headers_writes_two_lines_then_finalizes (s : HandlerState)
    (h : s.requestVersion ≠ "HTTP/0.9") :
    (Handler.end_headers s).wfile
        = s.wfile ++ [coopLine, coepLine, joinChunks s.headersBuffer ++ CRLF]
      ∧ (Handler.end_headers s).headersBuffer = [] := by
  unfold Handler.end_headers base_end_headers wfileWrite flush_headers
  rw [if_pos h]
  refine ⟨?_, rfl⟩
  simp [joinChunks_append, joinChunks, List.append_assoc]

/-- Witness for C2 at a concrete handler state holding one buffered
header chunk. -/
theorem end_headers_writes_two_lines_then_finalizes_witness :
    (Handler.end_headers ⟨"HTTP/1.1", ["HTTP/1.0 200 OK" ++ CRLF], []⟩).wfile
        = [] ++ [coopLine, coepLine, joinChunks ["HTTP/1.0 200 OK" ++ CRLF] ++ CRLF]
      ∧ (Handler.end_headers ⟨"HTTP/1.1", ["HTTP/1.0 200 OK" ++ CRLF], []⟩).headersBuffer = [] :=
  end_headers_writes_two_lines_then_finalizes
    ⟨"HTTP/1.1", ["HTTP/1.0 200 OK" ++ CRLF], []⟩ (by decide)

set_option maxRecDepth 40000 in
/-- Claim C1 (evaluation at the failing input). For both a found file (200)
and a missing one (404), the emitted byte stream places the two
COOP/COEP lines *before* the `HTTP/1.0` status line, and the response's
header block — the lines between the status line and the blank-line
terminator — contains neither of them: the claim that every response's
headers contain the two lines verbatim fails on the code. -/
theorem headers_written_before_status_line :
    ((wireLines (responseWire sampleEnv sampleFS "/index.html")).take 3
        = ["Cross-Origin-Opener-Policy: same-origin",
           "Cross-Origin-Embedder-Policy: require-corp",
           "HTTP/1.0 200 OK"]
      ∧ (headerBlock (responseWire sampleEnv sampleFS "/index.html")).contains
          "Cross-Origin-Opener-Policy: same-origin" = false
      ∧ (headerBlock (responseWire sampleEnv sampleFS "/index.html")).contains
          "Cross-Origin-Embedder-Policy: require-corp" = false)
    ∧ ((wireLines (responseWire sampleEnv sampleFS "/missing")).take 3
        = ["Cross-Origin-Opener-Policy: same-origin",
           "Cross-Origin-Embedder-Policy: require-corp",
           "HTTP/1.0 404 File not found"]
      ∧ (headerBlock (responseWire sampleEnv sampleFS "/missing")).contains
          "Cross-Origin-Opener-Policy: same-origin" = false
      ∧ (headerBlock (responseWire sampleEnv sampleFS "/missing")).contains
          "Cross-Origin-Embedder-Policy: require-corp" = false) := by
  decide

/-- Claim C3. For any valid port `P` in 1–65535 passed (in decimal) as the
sole command-line argument, the server binds its TCP listener to port
`P` (in an environment where that bind succeeds); when the argument is
omitted, it binds to port 8080. -/
theorem port_arg_and_default_bind :
    (∀ (s : String) (P : Nat) (env : Env),
        s.data ≠ [] → (∀ c ∈ s.data, c.isDigit = true) → digitsVal s = P →
        1 ≤ P → P ≤ 65535 → env.bindOk P = true →
        runStartup ["serve.py", s] env = .serving "" P [servingLine P])
    ∧ (∀ env : Env, env.bindOk 8080 = true →
        runStartup ["serve.py"] env = .serving "" 8080 [servingLine 8080]) := by
  constructor
  · intro s P env hne hdig hval _ hub hbind
    have hp : computePORT ["serve.py", s] = some ((P : Int)) := by
      rw [computePORT_two, pyInt_digits s hne hdig, hval]
    rw [runStartup_eq_some _ env _ hp]
    unfold bindAndServe
    rw [if_neg (by omega)]
    rw [show (((P : Int)).toNat) = P from Int.toNat_natCast P]
    rw [if_pos hbind]
  · intro env hbind
    rw [runStartup_eq_some _ env _ computePORT_none]
    unfold bindAndServe
    rw [if_neg (by omega)]
    rw [show ((8080 : Int).toNat) = 8080 from rfl, if_pos hbind]

/-- Witness for C3: port 443 as the argument, and the argument omitted,
in an environment where every bind succeeds. -/
theorem port_arg_and_default_bind_witness :
    runStartup ["serve.py", "443"] envAll = .serving "" 443 [servingLine 443]
    ∧ runStartup ["serve.py"] envAll = .serving "" 8080 [servingLine 8080] :=
  ⟨port_arg_and_default_bind.1 "443" 443 envAll (by decide) (by decide) (by decide)
      (by decide) (by decide) rfl,
    port_arg_and_default_bind.2 envAll rfl⟩

/-- Claim C4. A sole argument that Python's `int()` rejects makes the
process fail at startup with an uncaught `ValueError`: it never reaches
the serving loop — in particular it does not silently fall back to the
default port 8080 — and the process exits with failure. -/
theorem nonnumeric_arg_uncaught_value_error (s : String) (env : Env)
    (h : pyInt s = none) :
    runStartup ["serve.py", s] env = .valueError
    ∧ enteredServingLoop (runStartup ["serve.py", s] env) = false
    ∧ processExitsWithFailure (runStartup ["serve.py", s] env) = true
    ∧ ∀ host port out, runStartup ["serve.py", s] env ≠ .serving host port out := by
  have hp : computePORT ["serve.py", s] = none := by rw [computePORT_two, h]
  rw [runStartup_eq_none _ env hp]
  exact ⟨rfl, rfl, rfl, fun host port out hcon => StartupOutcome.noConfusion hcon⟩

/-- Witness for C4 at the non-numeric argument `"abc"`. -/
theorem nonnumeric_arg_uncaught_value_error_witness :
    runStartup ["serve.py", "abc"] envAll = .valueError
    ∧ enteredServingLoop (runStartup ["serve.py", "abc"] envAll) = false
    ∧ processExitsWithFailure (runStartup ["serve.py", "abc"] envAll) = true
    ∧ ∀ host port out, runStartup ["serve.py", "abc"] envAll ≠ .serving host port out :=
  nonnumeric_arg_uncaught_value_error "abc" envAll (by decide)

/-- Claim C5 (counterexample). The argument `"0"` parses as the
non-positive integer 0, yet startup proceeds all the way into the
serving loop: `TCPServer(('', 0))` binds successfully (the operating
system assigns an ephemeral port) and the script prints
`Serving on http://localhost:0`.  There is no positivity validation. -/
theorem zero_port_passes_startup :
    runStartup ["serve.py", "0"] envAll = .serving "" 0 [servingLine 0]
    ∧ enteredServingLoop (runStartup ["serve.py", "0"] envAll) = true := by
  decide

/-- Claim C5 (amended). The only startup validation is `int()` parsing:
an argument parsing to the non-positive integer 0 passes it and the
server starts whenever the wildcard bind succeeds, while an argument
parsing to a negative integer such as `-1` also passes parsing and fails
only later, at bind time, with an uncaught `OverflowError`. -/
theorem no_positivity_validation :
    (∀ env : Env, env.bindOk 0 = true →
        runStartup ["serve.py", "0"] env = .serving "" 0 [servingLine 0])
    ∧ (∀ env : Env, runStartup ["serve.py", "-1"] env = .overflowError
        ∧ enteredServingLoop (runStartup ["serve.py", "-1"] env) = false) := by
  constructor
  · intro env hbind
    rw [runStartup_eq_some ["serve.py", "0"] env 0 rfl]
    unfold bindAndServe
    rw [if_neg (by omega)]
    rw [show ((0 : Int).toNat) = 0 from rfl, if_pos hbind]
  · intro env
    exact ⟨rfl, rfl⟩

/-- Witness for the amended C5 at the concrete arguments `"0"` and
`"-1"`. -/
theorem no_positivity_validation_witness :
    runStartup ["serve.py", "0"] envAll = .serving "" 0 [servingLine 0]
    ∧ runStartup ["serve.py", "-1"] envAll = .overflowError :=
  ⟨no_positivity_validation.1 envAll rfl, (no_positivity_validation.2 envAll).1⟩

/-- Claim C6. When the argument parses to an in-range port but the OS-level
bind fails (port in use, privileged port), the `OSError` propagates
uncaught: the process never enters the serving loop and exits with
failure. -/
theorem bind_failure_uncaught (argv : List String) (env : Env) (p : Int)
    (hp : computePORT argv = some p) (h0 : 0 ≤ p) (h1 : p ≤ 65535)
    (hbind : env.bindOk p.toNat = false) :
    runStartup argv env = .osError "" p.toNat
    ∧ enteredServingLoop (runStartup argv env) = false
    ∧ processExitsWithFailure (runStartup argv env) = true := by
  rw [runStartup_eq_some argv env p hp]
  unfold bindAndServe
  rw [if_neg (by omega)]
  rw [if_neg (by rw [hbind]; exact Bool.false_ne_true)]
  exact ⟨rfl, rfl, rfl⟩

/-- Witness for C6: no argument (port 8080) in an environment where every
bind fails. -/
theorem bind_failure_uncaught_witness :
    runStartup ["serve.py"] envNone = .osError "" (8080 : Int).toNat
    ∧ enteredServingLoop (runStartup ["serve.py"] envNone) = false
    ∧ processExitsWithFailure (runStartup ["serve.py"] envNone) = true :=
  bind_failure_uncaught ["serve.py"] envNone 8080 rfl (by decide) (by decide) rfl

/-- Claim C7. Once the server has started, the `serve_forever` loop never
terminates of its own accord: after any finite sequence of poll ticks —
whatever connections they deliver — the shutdown flag that is the loop's
only exit condition is still unset, since nothing in the script ever
calls `shutdown()`. -/
theorem serve_forever_never_self_exits (sv : String) (fs : FS)
    (polls : List (Option Conn)) :
    (serve_forever sv (initialServerState fs) polls).shutdownRequest = false :=
  serve_forever_shutdownRequest sv polls (initialServerState fs)

/-- Claim C8. Handling a request mutates no state shared across requests:
after any history of poll ticks, the file system held by the server is
unchanged, and the response sent for a request `c` is exactly the one
computed from the original file system — the same bytes regardless of
which or how many other requests were served previously. -/
theorem request_handling_stateless (sv : String) (fs : FS)
    (polls : List (Option Conn)) (c : Conn) :
    (serve_forever sv (initialServerState fs) (polls ++ [some c])).transcript.getLast?
        = some (responseWire ⟨sv, c.date⟩ fs c.path)
    ∧ (serve_forever sv (initialServerState fs) polls).fs = fs := by
  constructor
  · show ((polls ++ [some c]).foldl (pollStep sv) (initialServerState fs)).transcript.getLast? = _
    rw [List.foldl_append]
    have hsd : (serve_forever sv (initialServerState fs) polls).shutdownRequest = false :=
      serve_forever_shutdownRequest sv polls (initialServerState fs)
    show (pollStep sv (serve_forever sv (initialServerState fs) polls) (some c)).transcript.getLast? = _
    unfold pollStep
    rw [if_neg (by rw [hsd]; exact Bool.false_ne_true)]
    unfold handleOne
    rw [List.getLast?_concat]
    rw [serve_forever_fs sv polls (initialServerState fs)]
    rfl
  · exact serve_forever_fs sv polls (initialServerState fs)

/-- Claim C9. Whenever startup succeeds (the run reaches the serving loop),
exactly one line has been printed to standard output, and it is
`Serving on http://localhost:<port>` with the bound port in decimal. -/
theorem startup_prints_one_serving_line (argv : List String) (env : Env)
    (host : String) (port : Nat) (out : List String)
    (h : runStartup argv env = .serving host port out) :
    out = [servingLine port] ∧ out.length = 1 := by
  obtain ⟨-, hout⟩ := runStartup_serving_inv argv env host port out h
  exact ⟨hout, by rw [hout]; rfl⟩

/-- Witness for C9 at a default-port startup that succeeds. -/
theorem startup_prints_one_serving_line_witness :
    [servingLine 8080] = [servingLine 8080] ∧ ([servingLine 8080] : List String).length = 1 :=
  startup_prints_one_serving_line ["serve.py"] envAll "" 8080 [servingLine 8080] rfl

/-- Claim C10. Whenever startup succeeds, the TCP listener was bound with
host `''` — the wildcard address, which accepts connections arriving on
every local interface — and not the loopback interface, even though the
single announced line names only `localhost`. -/
theorem binds_wildcard_host_announces_localhost (argv : List String) (env : Env)
    (host : String) (port : Nat) (out : List String)
    (h : runStartup argv env = .serving host port out) :
    host = "" ∧ (∀ iface, acceptsConnectionFrom host iface = true)
    ∧ out = [servingLine port]
    ∧ ∃ rest, servingLine port = "Serving on http://localhost:" ++ rest := by
  obtain ⟨hhost, hout⟩ := runStartup_serving_inv argv env host port out h
  subst hhost
  exact ⟨rfl, fun iface => by simp [acceptsConnectionFrom], hout, ⟨toString port, rfl⟩⟩

/-- Witness for C10 at a default-port startup that succeeds. -/
theorem binds_wildcard_host_announces_localhost_witness :
    ("" : String) = "" ∧ (∀ iface, acceptsConnectionFrom "" iface = true)
    ∧ [servingLine 8080] = [servingLine 8080]
    ∧ ∃ rest, servingLine 8080 = "Serving on http://localhost:" ++ rest :=
  binds_wildcard_host_announces_localhost ["serve.py"] envAll "" 8080 [servingLine 8080] rfl

end Serve
